import Mathlib

/-!
# Verification of the Fornjot B-rep kernel spec against its source

Shallow embedding of the parts of the Fornjot repository that the
specification's claims are about:

* `crates/fj-kernel/src/algorithms/transform.rs` — the transform engine
  (`TransformObject`, `GlobalVertex`, `Vertex`, `Curve<3>`);
* `crates/fj-operations/src/sweep.rs` — sweep bounding volume and B-rep
  computation;
* `crates/fj-host/src/lib.rs` — the model watcher (`Watcher::receive`, the
  file-watch callback, the rebuild notification channel);
* `fj/src/export_3mf.rs` — the 3MF export function;
* `src/kernel/topology/edges.rs` — the early-kernel `Edge` type;
* `fj/src/geometry/triangle.rs` — `Triangle` and its array conversions.

Scalars are modelled as `ℚ` (the source uses `f64`; the claims under test are
structural/data-flow properties, not rounding properties), so that every
definition is executable and every concrete instance can be settled by
`decide` or `rfl`.
-/

/-! ## Model of `fj-math` (vectors, points, transforms, axis-aligned boxes)

The `fj-math` crate is part of the repository but is not under `src/`; the
definitions in this section are therefore modelled from the spec (§3
"Point / Vector: fixed-dimension numeric tuples", §4.1 translation-only /
rotation-only transforms, §4.3 axis-aligned boxes). -/

/-- A 3-dimensional vector / point (the source's `Vector<3>` / `Point<3>`,
components modelled as `ℚ`). -/
structure Vec3 where
  x : ℚ
  y : ℚ
  z : ℚ
deriving DecidableEq, Repr

/-- The zero vector. -/
def Vec3.zero : Vec3 := ⟨0, 0, 0⟩

/-- Componentwise addition. -/
def Vec3.add (u v : Vec3) : Vec3 := ⟨u.x + v.x, u.y + v.y, u.z + v.z⟩

/-- Scalar multiplication. -/
def Vec3.smul (s : ℚ) (v : Vec3) : Vec3 := ⟨s * v.x, s * v.y, s * v.z⟩

/-- Componentwise minimum. -/
def Vec3.cmin (u v : Vec3) : Vec3 := ⟨min u.x v.x, min u.y v.y, min u.z v.z⟩

/-- Componentwise maximum. -/
def Vec3.cmax (u v : Vec3) : Vec3 := ⟨max u.x v.x, max u.y v.y, max u.z v.z⟩

/-- A 3×3 matrix (the linear part of an affine transform). -/
structure Mat3 where
  m00 : ℚ
  m01 : ℚ
  m02 : ℚ
  m10 : ℚ
  m11 : ℚ
  m12 : ℚ
  m20 : ℚ
  m21 : ℚ
  m22 : ℚ
deriving DecidableEq, Repr

/-- The identity matrix. -/
def Mat3.id : Mat3 := ⟨1, 0, 0, 0, 1, 0, 0, 0, 1⟩

/-- Matrix addition. -/
def Mat3.add (a b : Mat3) : Mat3 :=
  ⟨a.m00 + b.m00, a.m01 + b.m01, a.m02 + b.m02,
   a.m10 + b.m10, a.m11 + b.m11, a.m12 + b.m12,
   a.m20 + b.m20, a.m21 + b.m21, a.m22 + b.m22⟩

/-- Scalar multiplication of a matrix. -/
def Mat3.smul (s : ℚ) (a : Mat3) : Mat3 :=
  ⟨s * a.m00, s * a.m01, s * a.m02,
   s * a.m10, s * a.m11, s * a.m12,
   s * a.m20, s * a.m21, s * a.m22⟩

/-- Matrix multiplication. -/
def Mat3.mul (a b : Mat3) : Mat3 :=
  ⟨a.m00 * b.m00 + a.m01 * b.m10 + a.m02 * b.m20,
   a.m00 * b.m01 + a.m01 * b.m11 + a.m02 * b.m21,
   a.m00 * b.m02 + a.m01 * b.m12 + a.m02 * b.m22,
   a.m10 * b.m00 + a.m11 * b.m10 + a.m12 * b.m20,
   a.m10 * b.m01 + a.m11 * b.m11 + a.m12 * b.m21,
   a.m10 * b.m02 + a.m11 * b.m12 + a.m12 * b.m22,
   a.m20 * b.m00 + a.m21 * b.m10 + a.m22 * b.m20,
   a.m20 * b.m01 + a.m21 * b.m11 + a.m22 * b.m21,
   a.m20 * b.m02 + a.m21 * b.m12 + a.m22 * b.m22⟩

/-- Matrix-vector multiplication. -/
def Mat3.mulVec (a : Mat3) (v : Vec3) : Vec3 :=
  ⟨a.m00 * v.x + a.m01 * v.y + a.m02 * v.z,
   a.m10 * v.x + a.m11 * v.y + a.m12 * v.z,
   a.m20 * v.x + a.m21 * v.y + a.m22 * v.z⟩

/-- An affine transform: a linear part and a translation part (the source's
`fj_math::Transform`, an affine 3D transform). -/
structure Transform where
  linear : Mat3
  transVec : Vec3
deriving DecidableEq, Repr

/-- Apply the transform to a point: `A·p + b`. -/
def Transform.transformPoint (t : Transform) (p : Vec3) : Vec3 :=
  (t.linear.mulVec p).add t.transVec

/-- Apply the transform to a direction vector: only the linear part acts. -/
def Transform.transformVector (t : Transform) (v : Vec3) : Vec3 :=
  t.linear.mulVec v

/-- Modelled from the spec: `fj_math::Transform::translation` (not under
`src/`) builds the translation-only transform for an offset vector —
identity linear part, the offset as translation part. -/
def Transform.translation (offset : Vec3) : Transform :=
  ⟨Mat3.id, offset⟩

/-- The skew-symmetric cross-product matrix of an axis-angle vector. -/
def Mat3.skew (a : Vec3) : Mat3 :=
  ⟨0, -a.z, a.y, a.z, 0, -a.x, -a.y, a.x, 0⟩

/-- Modelled from the spec: `fj_math::Transform::rotation` (not under `src/`)
builds the rotation-only transform for an axis-angle vector — a rotation
matrix as linear part and a zero translation part. Since the trigonometric
Rodrigues map is not rational, the rotation matrix is modelled by the Cayley
parametrization `(I - K)⁻¹ (I + K) = I + 2/(1+‖a‖²) (K + K²)`, which is a
genuine rotation matrix for every axis-angle vector `a`; the claims under
test depend only on the transform being rotation-only (zero translation),
not on which rotation a given axis-angle vector denotes. -/
def Transform.rotation (axisAngle : Vec3) : Transform :=
  let k := Mat3.skew axisAngle
  let s := axisAngle.x ^ 2 + axisAngle.y ^ 2 + axisAngle.z ^ 2
  ⟨Mat3.add Mat3.id (Mat3.smul (2 / (1 + s)) (Mat3.add k (k.mul k))), Vec3.zero⟩

/-- An axis-aligned bounding box (the source's `fj_math::Aabb<3>`). -/
structure Aabb where
  mins : Vec3
  maxs : Vec3
deriving DecidableEq, Repr

/-- Well-formedness of a box: componentwise `mins ≤ maxs`. -/
def Aabb.wf (a : Aabb) : Prop :=
  a.mins.x ≤ a.maxs.x ∧ a.mins.y ≤ a.maxs.y ∧ a.mins.z ≤ a.maxs.z

instance (a : Aabb) : Decidable a.wf := by
  unfold Aabb.wf; infer_instance

/-- Modelled from the spec: `Aabb::merged` — the axis-aligned-box union of
two boxes (componentwise min of the minima, max of the maxima). -/
def Aabb.merged (a b : Aabb) : Aabb :=
  ⟨a.mins.cmin b.mins, a.maxs.cmax b.maxs⟩

/-- Modelled from the spec: `Aabb::vertices` — the eight corners of the box. -/
def Aabb.vertices (a : Aabb) : List Vec3 :=
  [⟨a.mins.x, a.mins.y, a.mins.z⟩,
   ⟨a.mins.x, a.mins.y, a.maxs.z⟩,
   ⟨a.mins.x, a.maxs.y, a.mins.z⟩,
   ⟨a.mins.x, a.maxs.y, a.maxs.z⟩,
   ⟨a.maxs.x, a.mins.y, a.mins.z⟩,
   ⟨a.maxs.x, a.mins.y, a.maxs.z⟩,
   ⟨a.maxs.x, a.maxs.y, a.mins.z⟩,
   ⟨a.maxs.x, a.maxs.y, a.maxs.z⟩]

/-- Modelled from the spec: `Aabb::from_points` — the smallest axis-aligned
box containing the given points (componentwise min/max fold; the empty list
yields the degenerate box at the origin). -/
def Aabb.fromPoints : List Vec3 → Aabb
  | [] => ⟨Vec3.zero, Vec3.zero⟩
  | p :: ps => ps.foldl (fun acc q => ⟨acc.mins.cmin q, acc.maxs.cmax q⟩) ⟨p, p⟩

/-- Translate a box by a vector. -/
def Aabb.translate (a : Aabb) (v : Vec3) : Aabb :=
  ⟨a.mins.add v, a.maxs.add v⟩

/-! ## Model of `fj-kernel` objects and the transform engine

From `crates/fj-kernel/src/algorithms/transform.rs`. The `objects` module
itself is not under `src/`; the shapes of `GlobalVertex`, `Vertex`, `Curve`
are modelled from the spec (§3: "Vertex: a point at a specific local
coordinate plus its global position (a `GlobalVertex`)"; "Curve: tagged
variant over `{Line, Circle}`"). -/

/-- A vertex in global 3D space (the source's `GlobalVertex`): just a
position, the authority for vertex identity. -/
structure GlobalVertex where
  position : Vec3
deriving DecidableEq, Repr

/-- Build a global vertex from a position (`GlobalVertex::from_position`). -/
def GlobalVertex.from_position (position : Vec3) : GlobalVertex :=
  ⟨position⟩

/-- `impl TransformObject for GlobalVertex` (transform.rs:104-109): map the
global position through the transform and rebuild the global vertex from the
resulting position. -/
def GlobalVertex.transform (v : GlobalVertex) (t : Transform) : GlobalVertex :=
  GlobalVertex.from_position (t.transformPoint v.position)

/-- A vertex on a curve (the source's `Vertex`): a 1D curve-parameter
coordinate paired with the underlying global vertex. -/
structure Vertex where
  position : ℚ
  global : GlobalVertex
deriving DecidableEq, Repr

/-- `Vertex::new(position, global)`. -/
def Vertex.new (position : ℚ) (global : GlobalVertex) : Vertex :=
  ⟨position, global⟩

/-- `impl TransformObject for Vertex` (transform.rs:141-145):
`Self::new(self.position(), self.global().transform(transform))` — the local
curve coordinate is passed through unchanged, the global vertex is
transformed. -/
def Vertex.transform (v : Vertex) (t : Transform) : Vertex :=
  Vertex.new v.position (v.global.transform t)

/-- A line in 3D (modelled from the spec: a curve variant mapping parameter
`s` to `origin + s · direction`). -/
structure Line where
  origin : Vec3
  direction : Vec3
deriving DecidableEq, Repr

/-- The point of the line at curve parameter `s`. -/
def Line.pointAt (l : Line) (s : ℚ) : Vec3 :=
  l.origin.add (Vec3.smul s l.direction)

/-- A circle in 3D (modelled from the spec: center plus two radius vectors
spanning the circle's plane). -/
structure Circle3 where
  center : Vec3
  a : Vec3
  b : Vec3
deriving DecidableEq, Repr

/-- Modelled from the spec: `Transform::transform_line` of `fj-math` (not
under `src/`) — the origin transforms as a point, the direction as a
vector. -/
def Transform.transform_line (t : Transform) (l : Line) : Line :=
  ⟨t.transformPoint l.origin, t.transformVector l.direction⟩

/-- Modelled from the spec: `Transform::transform_circle` of `fj-math` (not
under `src/`) — the center transforms as a point, the radius vectors as
vectors. -/
def Transform.transform_circle (t : Transform) (c : Circle3) : Circle3 :=
  ⟨t.transformPoint c.center, t.transformVector c.a, t.transformVector c.b⟩

/-- The source's `Curve<3>`: tagged variant over line and circle. -/
inductive Curve3 where
  | circle (c : Circle3)
  | line (l : Line)
deriving DecidableEq, Repr

/-- `impl TransformObject for Curve<3>` (transform.rs:38-47). -/
def Curve3.transform (c : Curve3) (t : Transform) : Curve3 :=
  match c with
  | .circle c => .circle (t.transform_circle c)
  | .line l => .line (t.transform_line l)

/-- The `TransformObject` trait (transform.rs:20-36): an implementing type
supplies `transform`; `translate` and `rotate` are the trait's default
methods, fixed for every implementor. -/
structure TransformObject (α : Type) where
  transform : α → Transform → α

/-- The trait's default `translate` method (transform.rs:27-29):
`self.transform(&Transform::translation(offset))`. -/
def TransformObject.translate {α : Type} (i : TransformObject α)
    (x : α) (offset : Vec3) : α :=
  i.transform x (Transform.translation offset)

/-- The trait's default `rotate` method (transform.rs:33-35):
`self.transform(&Transform::rotation(axis_angle))`. -/
def TransformObject.rotate {α : Type} (i : TransformObject α)
    (x : α) (axisAngle : Vec3) : α :=
  i.transform x (Transform.rotation axisAngle)

/-- The `GlobalVertex` instance of the trait. -/
def globalVertexTransformObject : TransformObject GlobalVertex :=
  ⟨GlobalVertex.transform⟩

/-- The `Vertex` instance of the trait. -/
def vertexTransformObject : TransformObject Vertex :=
  ⟨Vertex.transform⟩

/-- The `Curve<3>` instance of the trait. -/
def curve3TransformObject : TransformObject Curve3 :=
  ⟨Curve3.transform⟩

/-! ## Claims C1 and C3: vertex transformation and derived convenience ops -/

/-- The claim of C1 as stated, as a proposition: (a) transforming a global
vertex maps its position through the transform and rebuilds from the
resulting position, and (b) the local curve coordinate of a vertex is not
reused verbatim (i.e. some vertex's local coordinate changes under some
transform). -/
def c1ClaimAsStated : Prop :=
  (∀ (g : GlobalVertex) (t : Transform),
      g.transform t = GlobalVertex.from_position (t.transformPoint g.position)) ∧
  (∃ (v : Vertex) (t : Transform), (v.transform t).position ≠ v.position)

/-- C1 counterexample: the claim as stated is false. The second half asserts
the local coordinate is NOT reused verbatim, but `Vertex::transform`
(transform.rs:141-145) passes `self.position()` through unchanged, so the
transformed vertex's local coordinate always equals the original one. -/
theorem c1_local_coordinate_claim_false : ¬ c1ClaimAsStated :=
  fun h => match h.2 with
  | ⟨_, _, hne⟩ => hne rfl

/-- C1 (amended): transforming a global vertex maps its global position
through the affine transform and rebuilds the global vertex from the
resulting position; transforming a (curve-local) vertex reuses its local
curve coordinate verbatim and rebuilds the vertex from that coordinate and
the transformed global vertex. The reused coordinate stays consistent: a
vertex lying at parameter `s` on a line lies at the same parameter `s` on
the transformed line. -/
theorem vertex_transform_rebuilds_global_reuses_local :
    (∀ (g : GlobalVertex) (t : Transform),
        g.transform t = GlobalVertex.from_position (t.transformPoint g.position)) ∧
    (∀ (v : Vertex) (t : Transform),
        v.transform t = Vertex.new v.position (v.global.transform t)) ∧
    (∀ (v : Vertex) (t : Transform), (v.transform t).position = v.position) ∧
    (∀ (v : Vertex) (l : Line) (t : Transform),
        v.global.position = l.pointAt v.position →
        (v.transform t).global.position
          = (t.transform_line l).pointAt ((v.transform t).position)) := by
  refine ⟨fun g t => rfl, fun v t => rfl, fun v t => rfl, fun v l t h => ?_⟩
  show t.transformPoint v.global.position = _
  rw [h]
  simp only [Vertex.transform, Vertex.new, Line.pointAt, Transform.transform_line,
    Transform.transformPoint, Transform.transformVector, Mat3.mulVec, Vec3.add,
    Vec3.smul, Vec3.mk.injEq]
  refine ⟨by ring, by ring, by ring⟩

/-- Witness for C1's amended theorem: the vertex at parameter `1` on the
x-axis line, translated by `(1,1,1)`, still lies at parameter `1` on the
translated line. -/
theorem vertex_transform_rebuilds_global_reuses_local_witness :
    ((Vertex.new 1 ⟨⟨1, 0, 0⟩⟩).global.position
        = (Line.mk ⟨0, 0, 0⟩ ⟨1, 0, 0⟩).pointAt (Vertex.new 1 ⟨⟨1, 0, 0⟩⟩).position) ∧
    (((Vertex.new 1 ⟨⟨1, 0, 0⟩⟩).transform (Transform.translation ⟨1, 1, 1⟩)).global.position
        = ((Transform.translation ⟨1, 1, 1⟩).transform_line
            (Line.mk ⟨0, 0, 0⟩ ⟨1, 0, 0⟩)).pointAt
          (((Vertex.new 1 ⟨⟨1, 0, 0⟩⟩).transform (Transform.translation ⟨1, 1, 1⟩)).position)) :=
  ⟨by simp [Vertex.new, Line.pointAt, Vec3.smul, Vec3.add],
   vertex_transform_rebuilds_global_reuses_local.2.2.2
     (Vertex.new 1 ⟨⟨1, 0, 0⟩⟩) (Line.mk ⟨0, 0, 0⟩ ⟨1, 0, 0⟩)
     (Transform.translation ⟨1, 1, 1⟩)
     (by simp [Vertex.new, Line.pointAt, Vec3.smul, Vec3.add])⟩

/-- C3: `translate(offset)` and `rotate(axis_angle)` are the trait's default
methods, defined for every implementor as feeding a translation-only or
rotation-only transform into the general `transform`; their results are
exactly (bit-identically) equal to building that transform by hand, for
every type implementing `TransformObject` and in particular for the
`GlobalVertex`, `Vertex` and `Curve<3>` instances. -/
theorem translate_rotate_are_derived_transforms :
    (∀ (α : Type) (i : TransformObject α) (x : α) (offset axisAngle : Vec3),
        i.translate x offset = i.transform x (Transform.translation offset) ∧
        i.rotate x axisAngle = i.transform x (Transform.rotation axisAngle)) ∧
    (∀ (g : GlobalVertex) (offset : Vec3),
        globalVertexTransformObject.translate g offset
          = g.transform (Transform.translation offset)) ∧
    (∀ (v : Vertex) (axisAngle : Vec3),
        vertexTransformObject.rotate v axisAngle
          = v.transform (Transform.rotation axisAngle)) ∧
    (∀ (c : Curve3) (offset : Vec3),
        curve3TransformObject.translate c offset
          = c.transform (Transform.translation offset)) :=
  ⟨fun _ _ _ _ _ => ⟨rfl, rfl⟩, fun _ _ => rfl, fun _ _ => rfl, fun _ _ => rfl⟩

/-! ## Claim C2: sweep bounding volume

From `crates/fj-operations/src/sweep.rs` (lines 29-38). The inner sketch's
own bounding box is an input here (its computation lives in other ops
modules), so the sweep request is modelled by that box and the path. -/

/-- The data of `fj::Sweep` relevant to `bounding_volume`: the source
sketch's bounding box (`self.shape().bounding_volume()`) and the sweep path
(`self.path()`). -/
structure Sweep where
  shapeBoundingVolume : Aabb
  path : Vec3
deriving DecidableEq, Repr

/-- `Shape for fj::Sweep::bounding_volume` (sweep.rs:29-38): merge the source
sketch's bounding box with the box of the path-translated corners of that
same bounding box. -/
def Sweep.bounding_volume (s : Sweep) : Aabb :=
  s.shapeBoundingVolume.merged
    (Aabb.fromPoints (s.shapeBoundingVolume.vertices.map (fun v => v.add s.path)))

/-- Helper: for a well-formed box, the box of its translated corners is the
translated box. -/
theorem Aabb.fromPoints_vertices_translate (b : Aabb) (p : Vec3) (h : b.wf) :
    Aabb.fromPoints (b.vertices.map (fun v => v.add p)) = b.translate p := by
  obtain ⟨hx, hy, hz⟩ := h
  have hx' : b.mins.x + p.x ≤ b.maxs.x + p.x := by linarith
  have hy' : b.mins.y + p.y ≤ b.maxs.y + p.y := by linarith
  have hz' : b.mins.z + p.z ≤ b.maxs.z + p.z := by linarith
  simp [Aabb.vertices, Aabb.fromPoints, Aabb.translate, Vec3.add, Vec3.cmin,
    Vec3.cmax, min_self, max_self, min_eq_left hx', min_eq_left hy',
    min_eq_left hz', max_eq_right hx', max_eq_right hy', max_eq_right hz',
    max_eq_left hx', max_eq_left hy', max_eq_left hz']

/-- C2: the bounding volume of a sweep equals the axis-aligned-box union of
the source sketch's bounding box with that same box translated by the sweep
path; in particular the unit square in the XY plane swept by `(0,0,5)` has
bounding box `[0,1] × [0,1] × [0,5]`. -/
theorem sweep_bounding_volume_union_of_translated_box :
    (∀ s : Sweep, s.shapeBoundingVolume.wf →
        s.bounding_volume
          = s.shapeBoundingVolume.merged (s.shapeBoundingVolume.translate s.path)) ∧
    Sweep.bounding_volume ⟨⟨⟨0, 0, 0⟩, ⟨1, 1, 0⟩⟩, ⟨0, 0, 5⟩⟩
      = ⟨⟨0, 0, 0⟩, ⟨1, 1, 5⟩⟩ := by
  constructor
  · intro s hwf
    unfold Sweep.bounding_volume
    rw [Aabb.fromPoints_vertices_translate _ _ hwf]
  · norm_num [Sweep.bounding_volume, Aabb.merged, Aabb.vertices, Aabb.fromPoints,
      Aabb.translate, Vec3.add, Vec3.cmin, Vec3.cmax, min_def, max_def]

/-- Witness for C2: the unit-square box is well-formed and the theorem
applies to it. -/
theorem sweep_bounding_volume_union_of_translated_box_witness :
    (Aabb.mk ⟨0, 0, 0⟩ ⟨1, 1, 0⟩).wf ∧
    Sweep.bounding_volume ⟨⟨⟨0, 0, 0⟩, ⟨1, 1, 0⟩⟩, ⟨0, 0, 5⟩⟩
      = (Aabb.mk ⟨0, 0, 0⟩ ⟨1, 1, 0⟩).merged
          ((Aabb.mk ⟨0, 0, 0⟩ ⟨1, 1, 0⟩).translate ⟨0, 0, 5⟩) :=
  ⟨by simp [Aabb.wf],
   sweep_bounding_volume_union_of_translated_box.1
     ⟨⟨⟨0, 0, 0⟩, ⟨1, 1, 0⟩⟩, ⟨0, 0, 5⟩⟩ (by simp [Aabb.wf])⟩

/-! ## Claim C4: sweep `compute_brep` control and error flow

From `crates/fj-operations/src/sweep.rs` (lines 14-27). The kernel's `sweep`
algorithm and `validate` entry point live in `fj-kernel` (not under `src/`),
so they enter the embedding as function parameters; the body below mirrors
the source's control flow exactly: inner `compute_brep` with the `?`
operator, then `sweep`, then `validate` as the returned expression. -/

/-- `Validated<T>` — the opaque certificate produced only by `validate`. -/
structure Validated (α : Type) where
  inner : α

/-- `Validated::into_inner`. -/
def Validated.into_inner {α : Type} (v : Validated α) : α := v.inner

/-- `Shape for fj::Sweep::compute_brep` (sweep.rs:14-27):
`let sketch = self.shape().compute_brep(config, tolerance, debug_info)?;`
`let solid = sweep(sketch.into_inner(), path, tolerance, color);`
`validate(solid, config)`. The inner sketch computation's result and the
kernel's `sweep`/`validate` are parameters. -/
def Sweep.compute_brep {Sketch Solid Err Cfg Tol Color : Type}
    (sweepAlg : Sketch → Vec3 → Tol → Color → Solid)
    (validateAlg : Solid → Cfg → Except Err (Validated Solid))
    (shapeBrep : Except Err (Validated Sketch))
    (config : Cfg) (tolerance : Tol) (path : Vec3) (color : Color) :
    Except Err (Validated Solid) :=
  match shapeBrep with
  | .error e => .error e
  | .ok sketch => validateAlg (sweepAlg sketch.into_inner path tolerance color) config

/-- C4: computing the B-rep of a sweep propagates an inner sketch
`ValidationError` unchanged; on an inner success it sweeps the validated
sketch's inner value with the given path, tolerance and color, and returns
exactly what the `validate` entry point returns on the resulting solid under
the given configuration (so a `Validated<Solid>` arises only via
`validate`, and a solid-validation error is likewise propagated
unchanged). -/
theorem sweep_compute_brep_validates_and_propagates :
    ∀ (Sketch Solid Err Cfg Tol Color : Type)
      (sweepAlg : Sketch → Vec3 → Tol → Color → Solid)
      (validateAlg : Solid → Cfg → Except Err (Validated Solid))
      (shapeBrep : Except Err (Validated Sketch))
      (config : Cfg) (tolerance : Tol) (path : Vec3) (color : Color),
    (∀ e, shapeBrep = .error e →
        Sweep.compute_brep sweepAlg validateAlg shapeBrep config tolerance path color
          = .error e) ∧
    (∀ sk, shapeBrep = .ok sk →
        Sweep.compute_brep sweepAlg validateAlg shapeBrep config tolerance path color
          = validateAlg (sweepAlg sk.into_inner path tolerance color) config) ∧
    (∀ vs, Sweep.compute_brep sweepAlg validateAlg shapeBrep config tolerance path color
          = .ok vs →
        ∃ sk, shapeBrep = .ok sk ∧
          validateAlg (sweepAlg sk.into_inner path tolerance color) config = .ok vs) := by
  intro Sketch Solid Err Cfg Tol Color sweepAlg validateAlg shapeBrep config tol path color
  refine ⟨fun e he => ?_, fun sk hsk => ?_, fun vs hvs => ?_⟩
  · rw [he]; rfl
  · rw [hsk]; rfl
  · cases hb : shapeBrep with
    | error e => rw [hb] at hvs; exact absurd hvs (by simp [Sweep.compute_brep])
    | ok sk =>
      refine ⟨sk, rfl, ?_⟩
      rw [hb] at hvs
      exact hvs

/-- Witness for C4: at concrete unit-typed instances, an inner error `3` is
propagated unchanged. -/
theorem sweep_compute_brep_validates_and_propagates_witness :
    Sweep.compute_brep (fun (_ : Unit) (_ : Vec3) (_ : Unit) (_ : Unit) => ())
        (fun _ _ => Except.ok ⟨()⟩) (Except.error 3) () () Vec3.zero ()
      = (Except.error 3 : Except ℕ (Validated Unit)) :=
  (sweep_compute_brep_validates_and_propagates Unit Unit ℕ Unit Unit Unit
      (fun _ _ _ _ => ()) (fun _ _ => Except.ok ⟨()⟩) (Except.error 3)
      () () Vec3.zero ()).1 3 rfl

/-! ## Claims C5, C6, C9: the model host (`crates/fj-host/src/lib.rs`) -/

/-- The host's `Error` enum (lib.rs:336-375): `Compile`, `Io`, `LibLoading`,
`Notify`, `CargoMetadata`, `AmbiguousPath` (payloads elided — the claims
discriminate only on the variant). -/
inductive HostError where
  | compile
  | ioError
  | libLoading
  | notifyError
  | cargoMetadata
  | ambiguousPath
deriving DecidableEq, Repr

/-- Outcome of a non-blocking `try_recv` on the rebuild channel, mirroring
`std::sync::mpsc::TryRecvError`: a received value, `Empty`, or
`Disconnected`. -/
inductive TryRecvResult where
  | ok
  | empty
  | disconnected
deriving DecidableEq, Repr

/-- How a call of `Watcher::receive` ends: a normal return with an optional
shape, or a panic (the call does not return normally). -/
inductive ReceiveOutcome (Shape : Type) where
  | returns (s : Option Shape)
  | panicked
deriving DecidableEq, Repr

/-- `Watcher::receive` (lib.rs:261-297) as a function of the channel poll
outcome and of what `Model::load_once` would return: on a pending
notification, a compile error is reported and `None` returned; any other
load error panics; an empty channel returns `None`; a disconnected channel
panics. -/
def Watcher.receive {Shape : Type} (chan : TryRecvResult)
    (load : Except HostError Shape) : ReceiveOutcome Shape :=
  match chan with
  | .ok =>
    match load with
    | .ok shape => .returns (some shape)
    | .error .compile => .returns none
    | .error _ => .panicked
  | .empty => .returns none
  | .disconnected => .panicked

/-- C5: when a rebuild notification is pending, a model compile failure is
recoverable — `receive` returns `None`, retaining the previous good shape —
while a disconnected channel or any other reload error (I/O, library-load,
…) does not return normally; a successful reload returns the new shape. -/
theorem watcher_receive_compile_recoverable_others_fatal :
    ∀ (S : Type) (load : Except HostError S),
    (@Watcher.receive S .ok (.error .compile) = .returns none) ∧
    (∀ e : HostError, e ≠ .compile → @Watcher.receive S .ok (.error e) = .panicked) ∧
    (@Watcher.receive S .disconnected load = .panicked) ∧
    (∀ s : S, @Watcher.receive S .ok (.ok s) = .returns (some s)) := by
  intro S load
  refine ⟨rfl, fun e he => ?_, rfl, fun s => rfl⟩
  cases e
  · exact absurd rfl he
  all_goals rfl

/-- Witness for C5: an I/O reload error is not a compile error, and on a
pending notification it panics. -/
theorem watcher_receive_compile_recoverable_others_fatal_witness :
    HostError.ioError ≠ HostError.compile ∧
    @Watcher.receive Unit .ok (.error .ioError) = .panicked :=
  ⟨by decide,
   (watcher_receive_compile_recoverable_others_fatal Unit (.ok ())).2.1
     .ioError (by decide)⟩

/-- The kinds of `notify` events the file-watch callback distinguishes
(lib.rs:148-160): the three accepted `Modify` kinds, and everything else. -/
inductive WatchEventKind where
  | modifyAny
  | modifyDataAny
  | modifyDataContent
  | otherKind
deriving DecidableEq, Repr

/-- Whether the event kind is one of the three accepted `Modify` kinds. -/
def WatchEventKind.isModify : WatchEventKind → Bool
  | .modifyAny => true
  | .modifyDataAny => true
  | .modifyDataContent => true
  | .otherKind => false

/-- A path in a watch event; only its extension is inspected. -/
structure WatchPath where
  extension : Option String
deriving DecidableEq, Repr

/-- A file-watch event: its kind and its paths. -/
structure WatchEvent where
  kind : WatchEventKind
  paths : List WatchPath
deriving DecidableEq, Repr

/-- What the watch callback does with an event: send a rebuild notification,
return without sending, or panic (first path missing). -/
inductive CallbackAction where
  | send
  | noSend
  | panicked
deriving DecidableEq, Repr

/-- The editor-swap/temp extension blacklist (lib.rs:168-172). -/
def blackList : List String := ["swp", "tmp", "swx"]

/-- The file-watch callback of `Model::load_and_watch` (lib.rs:140-188): for
the accepted modify kinds, take the first path (panicking when missing); if
its extension is blacklisted, return without sending; otherwise send the
rebuild notification. Any other event kind falls through without sending. -/
def watchCallback (ev : WatchEvent) : CallbackAction :=
  if ev.kind.isModify then
    match ev.paths.head? with
    | none => .panicked
    | some p =>
      match p.extension with
      | some e => if e ∈ blackList then .noSend else .send
      | none => .send
  else .noSend

/-- C6: an event whose first path has a blacklisted extension never sends a
rebuild notification, and a notification is sent only for modify-kind events
whose first path's extension (if any) passes the blacklist filter. -/
theorem watch_callback_filters_blacklisted_extensions :
    (∀ (ev : WatchEvent) (p : WatchPath) (e : String),
        ev.paths.head? = some p → p.extension = some e → e ∈ blackList →
        watchCallback ev = .noSend) ∧
    (∀ ev : WatchEvent, watchCallback ev = .send →
        ev.kind.isModify = true ∧
        ∀ (p : WatchPath) (e : String), ev.paths.head? = some p →
          p.extension = some e → e ∉ blackList) := by
  constructor
  · intro ev p e hp he hb
    unfold watchCallback
    by_cases hk : ev.kind.isModify
    · simp [hk, hp, he, hb]
    · simp [hk]
  · intro ev hs
    unfold watchCallback at hs
    by_cases hk : ev.kind.isModify
    · refine ⟨hk, fun p e hp he hb => ?_⟩
      simp [hk, hp, he, hb] at hs
    · simp [hk] at hs

/-- Witness for C6: a modify event on a `.swp` file results in no
notification. -/
theorem watch_callback_filters_blacklisted_extensions_witness :
    watchCallback ⟨.modifyAny, [⟨some "swp"⟩]⟩ = .noSend :=
  watch_callback_filters_blacklisted_extensions.1
    ⟨.modifyAny, [⟨some "swp"⟩]⟩ ⟨some "swp"⟩ "swp" rfl rfl (by decide)

/-- The bound the host passes to `mpsc::sync_channel` when creating the
rebuild notification channel (lib.rs:135). -/
def syncChannelBound : ℕ := 0

/-- State of the rebuild notification channel. Modelled after the documented
semantics of `std::sync::mpsc::sync_channel(0)`, the channel the source
creates: with bound 0 the channel buffers nothing and every `send` blocks
until a receive takes the value, so the state is the number of senders
currently blocked in `send`; nothing is ever discarded. -/
structure SyncChannelState where
  blockedSenders : ℕ
deriving DecidableEq, Repr

/-- A `send` on the bound-0 channel: the sender blocks until received. -/
def SyncChannelState.send (s : SyncChannelState) : SyncChannelState :=
  ⟨s.blockedSenders + 1⟩

/-- A non-blocking `try_recv`: completes one blocked `send` when there is
one; otherwise reports `Empty` (or `Disconnected` when no sender remains). -/
def SyncChannelState.tryRecv (s : SyncChannelState) (senderConnected : Bool) :
    TryRecvResult × SyncChannelState :=
  if s.blockedSenders > 0 then (.ok, ⟨s.blockedSenders - 1⟩)
  else if senderConnected then (.empty, s) else (.disconnected, s)

/-- The claim of C9 as stated, at the concrete two-notification scenario it
quantifies over: the channel holds at most one pending notification, and
after a duplicate notification one successful poll drains it (the duplicate
was discarded rather than queued). -/
def c9ClaimAsStated : Prop :=
  (SyncChannelState.mk 0).send.send.blockedSenders ≤ 1 ∧
  (((SyncChannelState.mk 0).send.send.tryRecv true).2.tryRecv true).1 = .empty

/-- C9 counterexample: the claim as stated is false for the channel the code
creates. `mpsc::sync_channel(0)` blocks each sender instead of discarding a
superseded duplicate: after two sends two senders are pending, and a second
poll still yields a notification. -/
theorem c9_single_slot_discard_claim_false : ¬ c9ClaimAsStated := by
  unfold c9ClaimAsStated
  decide

/-- C9 (amended): the rebuild notification channel is created with bound 0 —
a zero-capacity rendezvous. It buffers no notification; a sender blocks
until the consumer receives, so a superseded duplicate notification is
delivered by a later poll rather than discarded; and the consumer polls
non-blockingly — an empty channel immediately reports `Empty` and
`Watcher::receive` returns no shape. -/
theorem sync_channel_rendezvous_semantics :
    syncChannelBound = 0 ∧
    (∀ s : SyncChannelState, s.send.blockedSenders = s.blockedSenders + 1) ∧
    ((SyncChannelState.mk 0).tryRecv true).1 = .empty ∧
    (∀ load : Except HostError Unit, @Watcher.receive Unit .empty load = .returns none) ∧
    ((SyncChannelState.mk 0).send.send.tryRecv true).1 = .ok ∧
    (((SyncChannelState.mk 0).send.send.tryRecv true).2.tryRecv true).1 = .ok :=
  ⟨rfl, fun _ => rfl, rfl, fun _ => rfl, by decide, by decide⟩

/-! ## Claim C7: 3MF export (`fj/src/export_3mf.rs`) -/

/-- An output path; only its file stem is inspected by `export_3mf`. -/
structure ExportPath where
  fileStem : Option String
deriving DecidableEq, Repr

/-- The export `Error` enum (export_3mf.rs:35-45): `NoFileName(PathBuf)`,
`Io(io::Error)`, `Zip(ZipError)` (the wrapped payloads of the latter two are
elided). -/
inductive ExportError where
  | noFileName (p : ExportPath)
  | ioError
  | zipError
deriving DecidableEq, Repr

/-- How `export_3mf` ends: a normal `Ok(())` return, a typed error, or the
`todo!()` panic at the end of the function (recording the zip entry written
before the panic). -/
inductive ExportOutcome where
  | okReturn
  | err (e : ExportError)
  | panickedTodo (modelEntry : String)
deriving DecidableEq, Repr

/-- `export_3mf` (export_3mf.rs:17-33) as a function of the path and of the
outcomes of the three fallible I/O steps (`File::create`,
`ZipWriter::start_file`, `ZipWriter::finish`): a path without a file stem
fails with `NoFileName` before anything is written; I/O and zip failures
surface as typed errors via `?`; otherwise the model part
`3D/<file-stem>.model` is started in the zip archive and the function then
hits `todo!()` — it never returns `Ok`. -/
def export_3mf (createRes startRes finishRes : Except Unit Unit)
    (path : ExportPath) : ExportOutcome :=
  match path.fileStem with
  | none => .err (.noFileName path)
  | some name =>
    match createRes with
    | .error _ => .err .ioError
    | .ok _ =>
      match startRes with
      | .error _ => .err .zipError
      | .ok _ =>
        match finishRes with
        | .error _ => .err .zipError
        | .ok _ => .panickedTodo ("3D/" ++ name ++ ".model")

/-- C7 evidence: `export_3mf` never returns `Ok`. A stem-less path fails
with `NoFileName` as claimed, but on the happy path the function writes the
`3D/<file-stem>.model` zip entry and then panics at `todo!()` instead of
returning `Ok`. -/
theorem export_3mf_never_returns_ok :
    (∀ (c s f : Except Unit Unit) (p : ExportPath),
        export_3mf c s f p ≠ .okReturn) ∧
    export_3mf (.ok ()) (.ok ()) (.ok ()) ⟨some "cube"⟩
      = .panickedTodo "3D/cube.model" ∧
    (∀ c s f : Except Unit Unit,
        export_3mf c s f ⟨none⟩ = .err (.noFileName ⟨none⟩)) := by
  refine ⟨fun c s f p => ?_, rfl, fun c s f => rfl⟩
  unfold export_3mf
  cases p.fileStem <;> cases c <;> cases s <;> cases f <;> simp

/-! ## Claim C8: the early kernel's edges (`src/kernel/topology/edges.rs`)

The `vertices` module of that kernel is not under `src/`; the 1D/3D vertex
types, and the conversion `Vertex::<3>::to_1d` that `Edge::new` applies, are
modelled from the spec ("bounded by an optional pair of vertices (curve
coordinates)"; "local vertices are views of [global vertices] against a
specific curve"). The conversion enters the embedding as a function
parameter. -/

namespace EarlyKernel

/-- The early kernel's `Circle` (geometry): a center point and the radius
value `vector![radius, 0.]`. -/
structure Circle where
  center : Vec3
  radius : ℚ × ℚ
deriving DecidableEq, Repr

/-- The early kernel's `Curve`: tagged variant over circle and line (spec §3). -/
inductive Curve where
  | circle (c : Circle)
  | line (l : Line)
deriving DecidableEq, Repr

/-- Modelled from the spec: a `Vertex<3>` — a vertex with a 3D position. -/
structure Vertex3 where
  position : Vec3
deriving DecidableEq, Repr

/-- Modelled from the spec: a `Vertex<1>` — a vertex in 1D curve
coordinates. -/
structure Vertex1 where
  position : ℚ
deriving DecidableEq, Repr

/-- The early kernel's `Edge` (edges.rs:56-76): a curve, an optional pair of
bounding vertices in curve coordinates (absence means the edge closes on
itself), and a `reverse` traversal flag. -/
structure Edge where
  curve : Curve
  vertices : Option (Vertex1 × Vertex1)
  reverse : Bool
deriving DecidableEq, Repr

/-- `Edge::new` (edges.rs:87-96): converts any supplied 3D vertices into
curve coordinates via `vertex.to_1d(&curve)` (the conversion `to1d` is a
parameter, `vertices.rs` not being under `src/`), and starts with the
`reverse` flag unset. -/
def Edge.new (to1d : Curve → Vertex3 → Vertex1) (curve : Curve)
    (vertices : Option (Vertex3 × Vertex3)) : Edge :=
  { curve := curve
    vertices := vertices.map (fun vs => (to1d curve vs.1, to1d curve vs.2))
    reverse := false }

/-- `Edge::circle` (edges.rs:98-108): a closed edge on a circle of radius
`r` centered at the origin — no bounding vertices, `reverse` unset. -/
def Edge.circle (radius : ℚ) : Edge :=
  { curve := Curve.circle ⟨Vec3.zero, (radius, 0)⟩
    vertices := none
    reverse := false }

end EarlyKernel

/-- C8: `Edge::new` stores supplied bounding vertices as the pair of their
curve-coordinate conversions against the given curve and leaves `reverse`
unset; absent vertices stay absent (the edge closes on itself); and
`Edge::circle r` is a closed edge (no bounding vertices, `reverse` unset)
whose curve is the circle of radius `r` centered at the origin. -/
theorem edge_new_converts_to_curve_coords_and_circle_is_closed :
    (∀ (to1d : EarlyKernel.Curve → EarlyKernel.Vertex3 → EarlyKernel.Vertex1)
       (curve : EarlyKernel.Curve) (v1 v2 : EarlyKernel.Vertex3),
        EarlyKernel.Edge.new to1d curve (some (v1, v2))
          = ⟨curve, some (to1d curve v1, to1d curve v2), false⟩) ∧
    (∀ (to1d : EarlyKernel.Curve → EarlyKernel.Vertex3 → EarlyKernel.Vertex1)
       (curve : EarlyKernel.Curve),
        EarlyKernel.Edge.new to1d curve none = ⟨curve, none, false⟩) ∧
    (∀ r : ℚ, EarlyKernel.Edge.circle r
        = ⟨EarlyKernel.Curve.circle ⟨Vec3.zero, (r, 0)⟩, none, false⟩) :=
  ⟨fun _ _ _ _ => rfl, fun _ _ => rfl, fun _ => rfl⟩

/-! ## Claim C10: `Triangle` ↔ array conversions (`fj/src/geometry/triangle.rs`)

The component scalar (`f32` in the source) is a type parameter: the
conversions only move components, so the round-trip property is independent
of the scalar. -/

/-- The source's `type Array = [[f32; 3]; 3]`. -/
abbrev TriArray (α : Type) : Type := (α × α × α) × (α × α × α) × (α × α × α)

/-- The source's `Triangle`: three corner points. -/
structure Triangle (α : Type) where
  a : α × α × α
  b : α × α × α
  c : α × α × α

/-- `Triangle::new` (triangle.rs:13-19): each corner array converts into a
point. -/
def Triangle.new {α : Type} (a b c : α × α × α) : Triangle α :=
  ⟨a, b, c⟩

/-- `impl From<Array> for Triangle` (triangle.rs:34-38). -/
def Triangle.fromArray {α : Type} : TriArray α → Triangle α
  | (a, b, c) => Triangle.new a b c

/-- `impl From<&Triangle> for Array` (triangle.rs:46-54): rebuild the three
rows from the corner components. -/
def Triangle.toArrayByRef {α : Type} (t : Triangle α) : TriArray α :=
  ((t.a.1, t.a.2.1, t.a.2.2),
   (t.b.1, t.b.2.1, t.b.2.2),
   (t.c.1, t.c.2.1, t.c.2.2))

/-- `impl From<Triangle> for Array` (triangle.rs:40-44): delegates to the
by-reference conversion. -/
def Triangle.toArrayByValue {α : Type} (t : Triangle α) : TriArray α :=
  t.toArrayByRef

/-- C10: converting a triangle to a 3×3 component array and back yields the
same triangle, through both the by-value and the by-reference conversion
(and the array-side round trip holds as well). -/
theorem triangle_array_roundtrip :
    ∀ (α : Type) (t : Triangle α) (arr : TriArray α),
      Triangle.fromArray t.toArrayByRef = t ∧
      Triangle.fromArray t.toArrayByValue = t ∧
      (Triangle.fromArray arr).toArrayByRef = arr :=
  fun _ _ _ => ⟨rfl, rfl, rfl⟩
